import Mathlib

/-!
# Verification of the mini genomics dashboard

Shallow embedding of `src/mini_genomics_dashboard.py`.

The program builds a fixed 8-row pandas `DataFrame` (`load_data`,
lines 33-46), filters it by a date interval, a region selection and a
variant selection (`df_filtered`, lines 82-88), and renders three charts,
each guarded by an empty-result check (lines 102-146).

Modelling conventions:
* A `DataFrame` row is a `Sample` structure; the table is a `List Sample`,
  so row order and multiplicity are preserved exactly as pandas does.
* A `pandas.Timestamp` for a calendar day `YYYY-MM-DD` is encoded as the
  natural number `YYYYMMDD`; comparison of such timestamps coincides with
  the numeric order of this encoding.
* The multiselect widgets deliver lists of selected strings; membership
  tests (`Series.isin`) become `List.contains`.
* `Series.value_counts` is modelled by counting each distinct value (in
  order of first appearance after deduplication) and sorting the pairs by
  non-increasing count, which is exactly what pandas returns.
-/

/-- One row of the dashboard's table (line 34-43 of the source): columns
`Sample_ID`, `Date`, `Region`, `Variant`, `Genome_Length`. -/
structure Sample where
  sample_id : String
  date : Nat
  region : String
  variant : String
  genome_length : Nat
deriving DecidableEq, Repr

/-- The fixed 8-row dataset constructed by `load_data` (lines 33-46).
Dates are encoded as `YYYYMMDD`. -/
def load_data : List Sample :=
  [ ⟨"BR001", 20210115, "Brazil", "Gamma", 29903⟩,
    ⟨"BR002", 20210210, "Brazil", "Gamma", 29903⟩,
    ⟨"BR003", 20210305, "Brazil", "Delta", 29850⟩,
    ⟨"MX001", 20210220, "Mexico", "Delta", 29900⟩,
    ⟨"MX002", 20210312, "Mexico", "Omicron", 29870⟩,
    ⟨"US001", 20210125, "USA", "Delta", 29910⟩,
    ⟨"US002", 20210215, "USA", "Omicron", 29865⟩,
    ⟨"US003", 20210302, "USA", "Gamma", 29903⟩ ]

/-- The boolean row mask of lines 84-87: the conjunction of the date
interval test, the region membership test and the variant membership
test, combined with `&` exactly as in the source. -/
def row_mask (start_date end_date : Nat) (selected_regions selected_variants : List String)
    (s : Sample) : Bool :=
  decide (start_date ≤ s.date) && decide (s.date ≤ end_date) &&
    selected_regions.contains s.region && selected_variants.contains s.variant

/-- `df_filtered` (lines 83-88): boolean-mask row selection
`df[(df.Date >= start) & (df.Date <= end) & df.Region.isin(regions)
& df.Variant.isin(variants)]`, keeping the masked rows in table order. -/
def df_filtered (df : List Sample) (start_date end_date : Nat)
    (selected_regions selected_variants : List String) : List Sample :=
  df.filter (row_mask start_date end_date selected_regions selected_variants)

/-- The filtering statement of lines 82-88 seen as a step on the program
state: it reads the table `df` and binds the derived view `df_filtered`.
The pair returned is (the table after the statement, the view); the
statement contains no assignment to `df`, so the first component is the
table unchanged. -/
def filter_step (df : List Sample) (start_date end_date : Nat)
    (selected_regions selected_variants : List String) : List Sample × List Sample :=
  (df, df_filtered df start_date end_date selected_regions selected_variants)

/-- `Series.value_counts` on a list of values: one entry per distinct
value with its number of occurrences, sorted by non-increasing count. -/
def value_counts (vs : List String) : List (String × Nat) :=
  (vs.dedup.map (fun v => (v, vs.count v))).insertionSort
    (fun a b : String × Nat => b.2 ≤ a.2)

/-- `variant_counts` (lines 104-105): `df_filtered['Variant'].value_counts()`
as a list of (variant, count) pairs. -/
def variant_counts (dfF : List Sample) : List (String × Nat) :=
  value_counts (dfF.map Sample.variant)

/-- Bar chart guard (lines 107-117): the warning is emitted iff
`len(variant_counts) == 0`; otherwise the bar chart is rendered. -/
def bar_emits_warning (dfF : List Sample) : Bool :=
  (variant_counts dfF).length == 0

/-- Bar chart rendering (the `else` branch of lines 107-117). -/
def bar_renders_chart (dfF : List Sample) : Bool :=
  !(bar_emits_warning dfF)

/-- Scatter chart guard (lines 121-132): the chart is rendered iff
`len(df_filtered) > 0`; otherwise the warning is emitted. -/
def scatter_renders_chart (dfF : List Sample) : Bool :=
  decide (dfF.length > 0)

/-- Scatter warning (the `else` branch of lines 121-132). -/
def scatter_emits_warning (dfF : List Sample) : Bool :=
  !(scatter_renders_chart dfF)

/-- Box plot guard (lines 136-146): the chart is rendered iff
`len(df_filtered) > 0`; otherwise the warning is emitted. -/
def box_renders_chart (dfF : List Sample) : Bool :=
  decide (dfF.length > 0)

/-- Box plot warning (the `else` branch of lines 136-146). -/
def box_emits_warning (dfF : List Sample) : Bool :=
  !(box_renders_chart dfF)

/-- The sort key of `value_counts` is total: counts are naturals. -/
instance : IsTotal (String × Nat) (fun a b => b.2 ≤ a.2) :=
  ⟨fun a b => Nat.le_total b.2 a.2⟩

/-- The sort key of `value_counts` is transitive. -/
instance : IsTrans (String × Nat) (fun a b => b.2 ≤ a.2) :=
  ⟨fun _ _ _ hab hbc => le_trans hbc hab⟩

/-- C1: a row is in the filtered view iff it is a row of the table and its
date lies in the inclusive interval and its region and variant belong to
the respective selected sets — the conjunction of the three predicates. -/
theorem mem_df_filtered_iff (df : List Sample) (start_date end_date : Nat)
    (rs vs : List String) (x : Sample) :
    x ∈ df_filtered df start_date end_date rs vs ↔
      x ∈ df ∧ (start_date ≤ x.date ∧ x.date ≤ end_date) ∧ x.region ∈ rs ∧ x.variant ∈ vs := by
  simp [df_filtered, row_mask, List.mem_filter, and_assoc]

/-- C2: the date predicate is inclusive on both bounds — a table row whose
date equals the start or the end of the interval passes the date test, and
is in the filtered view whenever its region and variant are selected. -/
theorem df_filtered_inclusive_bounds (df : List Sample) (start_date end_date : Nat)
    (rs vs : List String) (x : Sample) (hx : x ∈ df) (hle : start_date ≤ end_date)
    (hd : x.date = start_date ∨ x.date = end_date)
    (hr : x.region ∈ rs) (hv : x.variant ∈ vs) :
    x ∈ df_filtered df start_date end_date rs vs := by
  refine (mem_df_filtered_iff df start_date end_date rs vs x).mpr ⟨hx, ?_, hr, hv⟩
  rcases hd with h | h <;> simp [h, hle]

/-- Witness for C2: the row BR001 has date equal to the interval's start
and is kept by the filter. -/
theorem df_filtered_inclusive_bounds_witness :
    (⟨"BR001", 20210115, "Brazil", "Gamma", 29903⟩ : Sample) ∈
      df_filtered load_data 20210115 20210312 ["Brazil"] ["Gamma"] :=
  df_filtered_inclusive_bounds load_data 20210115 20210312 ["Brazil"] ["Gamma"]
    ⟨"BR001", 20210115, "Brazil", "Gamma", 29903⟩
    (by decide) (by decide) (Or.inl rfl) (by decide) (by decide)

/-- C3: if the selected-region set or the selected-variant set is empty,
the filtered view is empty, for every date interval. -/
theorem df_filtered_empty_selection (df : List Sample) (start_date end_date : Nat)
    (rs vs : List String) (h : rs = [] ∨ vs = []) :
    df_filtered df start_date end_date rs vs = [] := by
  rcases h with h | h <;> subst h <;>
    simp [df_filtered, row_mask, List.filter_eq_nil_iff]

/-- Witness for C3: with no region selected the full date range still
yields no rows. -/
theorem df_filtered_empty_selection_witness :
    df_filtered load_data 20210115 20210312 []
      ["Gamma", "Delta", "Omicron"] = [] :=
  df_filtered_empty_selection load_data 20210115 20210312 []
    ["Gamma", "Delta", "Omicron"] (Or.inl rfl)

/-- C4: a malformed interval with start after end yields an empty view;
`df_filtered` is a total function, so no failure occurs. -/
theorem df_filtered_malformed_range (df : List Sample) (start_date end_date : Nat)
    (rs vs : List String) (h : end_date < start_date) :
    df_filtered df start_date end_date rs vs = [] := by
  simp only [df_filtered, row_mask, List.filter_eq_nil_iff]
  intro s _ hmask
  simp only [Bool.and_eq_true, decide_eq_true_eq] at hmask
  exact absurd (le_trans hmask.1.1.1 hmask.1.1.2) (not_le.mpr h)

/-- Witness for C4: an interval ending before it starts selects nothing. -/
theorem df_filtered_malformed_range_witness :
    df_filtered load_data 20210312 20210115 ["Brazil", "Mexico", "USA"]
      ["Gamma", "Delta", "Omicron"] = [] :=
  df_filtered_malformed_range load_data 20210312 20210115
    ["Brazil", "Mexico", "USA"] ["Gamma", "Delta", "Omicron"] (by decide)

/-- C5: the filtered view is a sublist of the table — every result row is
a table row, no row occurs in the result more often than in the table,
and no row is fabricated. -/
theorem df_filtered_sublist (df : List Sample) (start_date end_date : Nat)
    (rs vs : List String) :
    (df_filtered df start_date end_date rs vs).Sublist df ∧
      (∀ x, x ∈ df_filtered df start_date end_date rs vs → x ∈ df) ∧
      ∀ x, (df_filtered df start_date end_date rs vs).count x ≤ df.count x := by
  have hsub : (df_filtered df start_date end_date rs vs).Sublist df :=
    List.filter_sublist df
  exact ⟨hsub, fun x hx => hsub.mem hx, fun x => hsub.count_le x⟩

/-- C6: filtering is idempotent — applying the same filter to its own
output returns that output unchanged. -/
theorem df_filtered_idempotent (df : List Sample) (start_date end_date : Nat)
    (rs vs : List String) :
    df_filtered (df_filtered df start_date end_date rs vs) start_date end_date rs vs =
      df_filtered df start_date end_date rs vs := by
  simp only [df_filtered, List.filter_filter, Bool.and_self]

/-- C8: on the literal 8-row dataset, regions {Brazil}, variants
{Gamma, Delta} and the full date range select exactly the rows BR001,
BR002, BR003 — three rows. -/
theorem df_filtered_brazil_scenario :
    df_filtered load_data 20210115 20210312 ["Brazil"] ["Gamma", "Delta"] =
      [ ⟨"BR001", 20210115, "Brazil", "Gamma", 29903⟩,
        ⟨"BR002", 20210210, "Brazil", "Gamma", 29903⟩,
        ⟨"BR003", 20210305, "Brazil", "Delta", 29850⟩ ] ∧
    (df_filtered load_data 20210115 20210312 ["Brazil"] ["Gamma", "Delta"]).map
        Sample.sample_id = ["BR001", "BR002", "BR003"] ∧
    (df_filtered load_data 20210115 20210312 ["Brazil"] ["Gamma", "Delta"]).length = 3 := by
  refine ⟨by rfl, by rfl, by rfl⟩

/-- C9: the filtering statement does not mutate the table — after the
step the table component of the state equals the table before it. -/
theorem filter_step_no_mutation (df : List Sample) (start_date end_date : Nat)
    (rs vs : List String) :
    (filter_step df start_date end_date rs vs).1 = df := rfl

/-- The variant-count table is empty exactly when the filtered view is. -/
theorem variant_counts_eq_nil_iff (dfF : List Sample) :
    variant_counts dfF = [] ↔ dfF = [] := by
  rw [← List.length_eq_zero, variant_counts, value_counts,
    List.length_insertionSort, List.length_map, List.length_eq_zero,
    List.dedup_eq_nil, List.map_eq_nil_iff]

/-- C7: each of the three charts emits its empty-result warning exactly
when the filtered view is empty, and renders its chart exactly when the
filtered view is non-empty. -/
theorem charts_empty_guard (dfF : List Sample) :
    (bar_emits_warning dfF = true ↔ dfF = []) ∧
    (bar_renders_chart dfF = true ↔ dfF ≠ []) ∧
    (scatter_emits_warning dfF = true ↔ dfF = []) ∧
    (scatter_renders_chart dfF = true ↔ dfF ≠ []) ∧
    (box_emits_warning dfF = true ↔ dfF = []) ∧
    (box_renders_chart dfF = true ↔ dfF ≠ []) := by
  have hbar : bar_emits_warning dfF = true ↔ dfF = [] := by
    rw [bar_emits_warning, beq_iff_eq, List.length_eq_zero]
    exact variant_counts_eq_nil_iff dfF
  have hlen : decide (dfF.length > 0) = true ↔ dfF ≠ [] := by
    simp [List.length_pos]
  have hbarr : bar_renders_chart dfF = true ↔ dfF ≠ [] := by
    rw [bar_renders_chart, Bool.not_eq_true', ← Bool.not_eq_true]
    exact not_congr hbar
  have hwarn : (!decide (dfF.length > 0)) = true ↔ dfF = [] := by
    rw [Bool.not_eq_true', ← Bool.not_eq_true]
    simp [List.length_eq_zero]
  exact ⟨hbar, hbarr, hwarn, hlen, hwarn, hlen⟩

/-- C10: the variant-frequency table has one entry per distinct variant of
the filtered view, each entry carries that variant's exact row count, the
entries are sorted by non-increasing count, and the counts sum to the
number of filtered rows. -/
theorem variant_counts_spec (dfF : List Sample) :
    ((variant_counts dfF).map Prod.fst).Perm (dfF.map Sample.variant).dedup ∧
    (∀ p ∈ variant_counts dfF, p.2 = (dfF.map Sample.variant).count p.1) ∧
    (variant_counts dfF).Sorted (fun a b => b.2 ≤ a.2) ∧
    ((variant_counts dfF).map Prod.snd).sum = dfF.length := by
  have hperm : (variant_counts dfF).Perm
      (((dfF.map Sample.variant).dedup).map
        (fun v => (v, (dfF.map Sample.variant).count v))) :=
    List.perm_insertionSort _ _
  refine ⟨?_, ?_, ?_, ?_⟩
  · have h1 := hperm.map Prod.fst
    rw [List.map_map] at h1
    simpa [Function.comp_def] using h1
  · intro p hp
    have hp' := hperm.mem_iff.mp hp
    obtain ⟨v, _, rfl⟩ := List.mem_map.mp hp'
    rfl
  · exact List.sorted_insertionSort _ _
  · calc ((variant_counts dfF).map Prod.snd).sum
        = (((dfF.map Sample.variant).dedup).map
            (fun v => (dfF.map Sample.variant).count v)).sum := by
          have h2 := (hperm.map Prod.snd).sum_eq
          rw [List.map_map] at h2
          simpa [Function.comp_def] using h2
      _ = (dfF.map Sample.variant).length :=
          List.sum_map_count_dedup_eq_length _
      _ = dfF.length := by simp
